import Mathlib

/-
Verification of the Stormx-uptime monitoring core (src/app.py).

Numeric model: the source stores response times (milliseconds) and
percentages as Python floats that are always produced by round(x, 2),
i.e. they are exact multiples of 0.01.  We therefore represent them as
natural numbers counting hundredths (centi-milliseconds respectively
hundredths of a percent), and model round(a / b, at the relevant scale)
by the half-up integer rounding `roundDiv a b`.  All quantities involved
(latencies, counters) are nonnegative, so Nat suffices.
-/

set_option maxRecDepth 4000

/-- Half-up rounding of the quotient a / b (b > 0): the nearest integer to
a / b, with halves rounded up.  Models Python round(...) applied to the
exact quotient at the scale fixed by the caller. -/
def roundDiv (a b : ℕ) : ℕ := (2 * a + b) / (2 * b)

/-- Embeds the MonitoredSite dataclass (src/app.py lines 26-31). -/
structure MonitoredSite where
  name : String
  url : String
  interval : Int
  paused : Bool
deriving DecidableEq

/-- One entry of the history list of a status record (src/app.py lines 221-225): the
timestamp string is abstracted to a Nat tick; response_time is in
centi-milliseconds. -/
structure HistoryEntry where
  time : ℕ
  status : String
  response_time : ℕ
deriving DecidableEq

/-- Embeds the per-site status dict created in update_site_status
(src/app.py lines 205-218).  uptime_percent is in hundredths of a
percent, response_time and avg_response_time in centi-milliseconds. -/
structure StatusRecord where
  name : String
  history : List HistoryEntry
  uptime_percent : ℕ
  last_checked : Option ℕ
  response_time : ℕ
  total_checks : ℕ
  up_count : ℕ
  down_count : ℕ
  avg_response_time : ℕ
  last_status : String
  paused : Bool
deriving DecidableEq

/-- The lazily created all-zero record (src/app.py lines 205-218). -/
def initStatusRecord (site : MonitoredSite) (status : String) : StatusRecord :=
  { name := site.name
    history := []
    uptime_percent := 0
    last_checked := none
    response_time := 0
    total_checks := 0
    up_count := 0
    down_count := 0
    avg_response_time := 0
    last_status := status
    paused := site.paused }

/-- successful_responses (src/app.py line 242): response times of the
retained history entries whose status equals "up". -/
def successfulResponses (h : List HistoryEntry) : List ℕ :=
  (h.filter (fun r => r.status = "up")).map (fun r => r.response_time)

/-- Embeds update_site_status (src/app.py lines 204-245) acting on one
one record of a site.  `old` is user.status_data.get(site.url); the lazily
created record is used when absent.  `now` abstracts datetime.now(). -/
def update_site_status (old : Option StatusRecord) (site : MonitoredSite)
    (status : String) (response_time : ℕ) (now : ℕ) : StatusRecord :=
  let record := old.getD (initStatusRecord site status)
  let history1 := record.history ++ [⟨now, status, response_time⟩]
  let history2 := if history1.length > 100 then history1.drop 1 else history1
  let total := record.total_checks + 1
  let ups := if status = "up" then record.up_count + 1 else record.up_count
  let downs := if status = "up" then record.down_count else record.down_count + 1
  let successful := successfulResponses history2
  { name := record.name
    history := history2
    uptime_percent := roundDiv (10000 * ups) total
    last_checked := some now
    response_time := response_time
    total_checks := total
    up_count := ups
    down_count := downs
    avg_response_time :=
      if successful = [] then 0 else roundDiv successful.sum successful.length
    last_status := status
    paused := site.paused }

/-- The avg_response_time recomputation (src/app.py lines 242-243) as a
function of a history list. -/
def avgFormula (h : List HistoryEntry) : ℕ :=
  let s := successfulResponses h
  if s = [] then 0 else roundDiv s.sum s.length

/-- The arguments of one update_site_status call on a fixed target. -/
structure CheckInput where
  site : MonitoredSite
  status : String
  response_time : ℕ
  now : ℕ
deriving DecidableEq

/-- One update_site_status call with bundled arguments. -/
def applyCheck (old : Option StatusRecord) (i : CheckInput) : StatusRecord :=
  update_site_status old i.site i.status i.response_time i.now

/-- A sequence of update_site_status calls on one target, starting from
the absent (lazily created) record. -/
def runChecks (l : List CheckInput) : Option StatusRecord :=
  l.foldl (fun acc i => some (applyCheck acc i)) none

/-- The observable input to the network interaction of check_site: either an
HTTP response arrived (with its status code and the measured elapsed
time, in centi-milliseconds, already rounded at measurement), or the
request raised (transport error, timeout, DNS failure, ...). -/
inductive HttpFetchResult where
  | response (status : ℕ) (elapsedCentiMs : ℕ)
  | failure (message : String)
deriving DecidableEq

/-- Embeds the classification part of check_site (src/app.py lines
189-199): the returned (status, response_time) pair.  The except branch
of the source catches every exception, so the embedding is total. -/
def check_site (res : HttpFetchResult) : String × ℕ :=
  match res with
  | .response st elapsed => (if st = 200 then "up" else "down", elapsed)
  | .failure _ => ("down", 0)

/-- Embeds the User dataclass (src/app.py lines 18-24); status_data is
an insertion-ordered association list keyed by url, like a Python dict. -/
structure User where
  username : String
  password_hash : String
  salt : String
  monitors : List MonitoredSite
  status_data : List (String × StatusRecord)
deriving DecidableEq

/-- Dict lookup user.status_data.get(url). -/
def lookupRecord (d : List (String × StatusRecord)) (url : String) :
    Option StatusRecord :=
  (d.find? (fun p => p.1 = url)).map (fun p => p.2)

/-- Dict assignment user.status_data[url] = r: overwrite in place when
the key exists, else append (Python dicts keep insertion order). -/
def setRecord (d : List (String × StatusRecord)) (url : String)
    (r : StatusRecord) : List (String × StatusRecord) :=
  if d.any (fun p => p.1 = url) then
    d.map (fun p => if p.1 = url then (url, r) else p)
  else d ++ [(url, r)]

/-- update_site_status at the user level: mutate the record stored under
site.url in user.status_data (src/app.py lines 204-243). -/
def update_site_status_user (user : User) (site : MonitoredSite)
    (status : String) (rt now : ℕ) : User :=
  { user with
    status_data := setRecord user.status_data site.url
      (update_site_status (lookupRecord user.status_data site.url) site status rt now) }

/-- Outcome of one save_users call (src/app.py lines 109-129): the body
is wrapped in try/except, so an I/O failure is printed and swallowed,
never raised, and the in-memory state is untouched either way. -/
inductive SaveOutcome where
  | saved
  | failedLogged
deriving DecidableEq

/-- save_users as a function of whether the file write succeeds. -/
def save_users (diskOk : Bool) : SaveOutcome :=
  if diskOk then .saved else .failedLogged

/-- update_site_status including its trailing self.save_users() call
(src/app.py lines 244-245): the mutated user plus the save outcome. -/
structure RecordUpdateResult where
  user : User
  saveResult : SaveOutcome
deriving DecidableEq

/-- The full effect of one update_site_status call: mutate, then save. -/
def update_site_status_eff (user : User) (site : MonitoredSite)
    (status : String) (rt now : ℕ) (diskOk : Bool) : RecordUpdateResult :=
  ⟨update_site_status_user user site status rt now, save_users diskOk⟩

/-- Response of handle_add_site: the duplicate rejection ("Site already exists") or success. -/
inductive AddOutcome where
  | duplicate
  | success
deriving DecidableEq

/-- Observable result of handle_add_site: the user state after the call,
the JSON outcome, and the save_users outcomes issued during the call in
order. -/
structure AddResult where
  user : User
  outcome : AddOutcome
  saveResults : List SaveOutcome
deriving DecidableEq

/-- Embeds handle_add_site (src/app.py lines 46-64) for an authenticated
user: reject a url already monitored by this user; otherwise append the
new MonitoredSite (paused defaults to False), save, and run the initial
check_site (whose update_site_status performs the second save). -/
def handle_add_site (user : User) (name url : String) (interval : Int)
    (probe : HttpFetchResult) (now : ℕ) (diskOk : Bool) : AddResult :=
  if user.monitors.any (fun s => s.url = url) then
    ⟨user, .duplicate, []⟩
  else
    let newSite : MonitoredSite := ⟨name, url, interval, false⟩
    let user1 : User := { user with monitors := user.monitors ++ [newSite] }
    let s1 := save_users diskOk
    let st := (check_site probe).1
    let rt := (check_site probe).2
    let upd := update_site_status_eff user1 newSite st rt now diskOk
    ⟨upd.user, .success, [s1, upd.saveResult]⟩

/-- Embeds one tick of monitor_sites (src/app.py lines 178-187): the
(user, site) pairs for which a check_site task is dispatched. -/
def monitor_tick (users : List User) : List (User × MonitoredSite) :=
  users.flatMap (fun u => (u.monitors.filter (fun s => !s.paused)).map (fun s => (u, s)))

/-- The statistics invariant maintained by update_site_status. -/
def RecordInv (r : StatusRecord) : Prop :=
  r.total_checks = r.up_count + r.down_count ∧
  r.history.length ≤ 100 ∧
  r.avg_response_time = avgFormula r.history

lemma initStatusRecord_inv (site : MonitoredSite) (status : String) :
    RecordInv (initStatusRecord site status) := by
  refine ⟨rfl, by simp [initStatusRecord], ?_⟩
  simp [initStatusRecord, avgFormula, successfulResponses]

lemma applyCheck_inv (old : Option StatusRecord) (i : CheckInput)
    (h : ∀ r, old = some r → RecordInv r) : RecordInv (applyCheck old i) := by
  have hbase : RecordInv (old.getD (initStatusRecord i.site i.status)) := by
    cases old with
    | none => exact initStatusRecord_inv i.site i.status
    | some r => exact h r rfl
  obtain ⟨h1, h2, h3⟩ := hbase
  refine ⟨?_, ?_, ?_⟩
  · simp only [applyCheck, update_site_status]
    split <;> omega
  · simp only [applyCheck, update_site_status]
    split <;> simp_all
  · simp only [applyCheck, update_site_status, avgFormula]

lemma runChecks_inv_aux (l : List CheckInput) :
    ∀ (acc : Option StatusRecord), (∀ r, acc = some r → RecordInv r) →
      ∀ r, l.foldl (fun a i => some (applyCheck a i)) acc = some r → RecordInv r := by
  induction l with
  | nil =>
    intro acc hacc r hr
    simp only [List.foldl_nil] at hr
    exact hacc r hr
  | cons i t ih =>
    intro acc hacc r hr
    simp only [List.foldl_cons] at hr
    refine ih (some (applyCheck acc i)) ?_ r hr
    intro r' h'
    have : r' = applyCheck acc i := by injection h'.symm
    subst this
    exact applyCheck_inv acc i hacc

lemma runChecks_inv (l : List CheckInput) (r : StatusRecord)
    (h : runChecks l = some r) : RecordInv r :=
  runChecks_inv_aux l none (by intro r' h'; cases h') r h

/-- C1: after every update_site_status call, starting from the lazily
created all-zero record and for every sequence of recorded outcomes, the
record of the target satisfies total_checks = up_count + down_count. -/
theorem counters_sum_invariant (l : List CheckInput) (r : StatusRecord)
    (h : runChecks l = some r) :
    r.total_checks = r.up_count + r.down_count :=
  (runChecks_inv l r h).1

def wSite : MonitoredSite := ⟨"site", "http://x.test", 30, false⟩

def wUp : CheckInput := ⟨wSite, "up", 12000, 0⟩

def wDown : CheckInput := ⟨wSite, "down", 0, 1⟩

theorem counters_sum_invariant_witness :
    (applyCheck (some (applyCheck none wUp)) wDown).total_checks =
      (applyCheck (some (applyCheck none wUp)) wDown).up_count +
        (applyCheck (some (applyCheck none wUp)) wDown).down_count :=
  counters_sum_invariant [wUp, wDown] _ rfl

lemma applyCheck_getLast (old : Option StatusRecord) (i : CheckInput) :
    (applyCheck old i).history.getLast? =
      some ⟨i.now, i.status, i.response_time⟩ := by
  simp only [applyCheck, update_site_status]
  split
  · rename_i hgt
    rw [List.drop_append_of_le_length (by simp at hgt ⊢; omega)]
    exact List.getLast?_concat _
  · exact List.getLast?_concat _

lemma applyCheck_evict (r : StatusRecord) (i : CheckInput)
    (h : r.history.length = 100) :
    (applyCheck (some r) i).history =
      r.history.tail ++ [⟨i.now, i.status, i.response_time⟩] := by
  simp only [applyCheck, update_site_status, Option.getD]
  rw [if_pos (by simp [h]), List.drop_append_of_le_length (by omega), List.drop_one]

/-- C2: for every sequence of record calls on one target, the retained
history never exceeds 100 entries, each new outcome is appended at the
end, and once the bound is reached a further append evicts exactly the
oldest entry (FIFO). -/
theorem history_bounded_fifo (l : List CheckInput) (r : StatusRecord)
    (i : CheckInput) (h : runChecks l = some r) :
    r.history.length ≤ 100 ∧
    (applyCheck (some r) i).history.getLast? =
      some ⟨i.now, i.status, i.response_time⟩ ∧
    (r.history.length = 100 →
      (applyCheck (some r) i).history =
        r.history.tail ++ [⟨i.now, i.status, i.response_time⟩]) :=
  ⟨(runChecks_inv l r h).2.1, applyCheck_getLast (some r) i,
    fun hl => applyCheck_evict r i hl⟩

def wList100 : List CheckInput := wUp :: List.replicate 99 wDown

def wRec100 : StatusRecord := (runChecks wList100).getD (initStatusRecord wSite "up")

theorem history_bounded_fifo_witness :
    wRec100.history.length ≤ 100 ∧
    (applyCheck (some wRec100) wDown).history.getLast? =
      some ⟨wDown.now, wDown.status, wDown.response_time⟩ ∧
    (wRec100.history.length = 100 →
      (applyCheck (some wRec100) wDown).history =
        wRec100.history.tail ++ [⟨wDown.now, wDown.status, wDown.response_time⟩]) :=
  history_bounded_fifo wList100 wRec100 wDown (by rfl)

lemma applyCheck_avg (old : Option StatusRecord) (i : CheckInput) :
    (applyCheck old i).avg_response_time =
      avgFormula (applyCheck old i).history := rfl

lemma applyCheck_down_noevict (r : StatusRecord) (i : CheckInput)
    (hinv : r.avg_response_time = avgFormula r.history)
    (hdown : i.status = "down") (hlen : r.history.length < 100) :
    (applyCheck (some r) i).avg_response_time = r.avg_response_time := by
  have hist : (applyCheck (some r) i).history =
      r.history ++ [⟨i.now, i.status, i.response_time⟩] := by
    simp only [applyCheck, update_site_status, Option.getD]
    rw [if_neg (by simp; omega)]
  rw [applyCheck_avg, hist, hinv]
  simp [avgFormula, successfulResponses, List.filter_append, hdown]

/-- C3 (amended): after every record call, avg_response_time equals the
rounded mean of the response times of exactly the up entries retained in
the bounded history; recording a down outcome leaves avg_response_time
unchanged provided the history is below the 100-entry bound (when the
window is full, the down record can evict a retained success and change
the average); an evicted success no longer contributes, since the
average is recomputed from the retained history only. -/
theorem avg_over_retained_history (old : Option StatusRecord) (i : CheckInput)
    (l : List CheckInput) (r : StatusRecord) (j : CheckInput)
    (hr : runChecks l = some r) (hdown : j.status = "down")
    (hlen : r.history.length < 100) :
    (applyCheck old i).avg_response_time =
      avgFormula (applyCheck old i).history ∧
    (applyCheck (some r) j).avg_response_time = r.avg_response_time :=
  ⟨applyCheck_avg old i,
    applyCheck_down_noevict r j (runChecks_inv l r hr).2.2 hdown hlen⟩

def wRec1 : StatusRecord := (runChecks [wUp]).getD (initStatusRecord wSite "up")

theorem avg_over_retained_history_witness :
    (applyCheck none wUp).avg_response_time =
      avgFormula (applyCheck none wUp).history ∧
    (applyCheck (some wRec1) wDown).avg_response_time =
      wRec1.avg_response_time :=
  avg_over_retained_history none wUp [wUp] wRec1 wDown (by rfl) (by rfl) (by decide)

/-- C3 counterexample: on the reachable record produced by one success
at 120 ms followed by 99 down outcomes the retained history is full
(100 entries) with the success oldest, and avg_response_time is 12000
(120.00 ms); recording one more down outcome evicts that success and
changes avg_response_time to 0 — so a down record does not always leave
the average unchanged, refuting the claim as stated. -/
theorem avg_down_record_changes_average :
    wDown.status = "down" ∧
    (runChecks wList100).map (fun r => r.avg_response_time) = some 12000 ∧
    (runChecks wList100).map
      (fun r => (applyCheck (some r) wDown).avg_response_time) = some 0 ∧
    (runChecks wList100).map
        (fun r => (applyCheck (some r) wDown).avg_response_time) ≠
      (runChecks wList100).map (fun r => r.avg_response_time) := by
  refine ⟨rfl, by decide, by decide, by decide⟩

/-- C4: after every record call, uptime_percent (in hundredths of a
percent) equals the rounded value of up_count / total_checks * 100,
computed from the all-time counters, whose sum total_checks is the
all-time number of calls (one more than before the call) and hence
non-zero. -/
theorem uptime_percent_from_counters (old : Option StatusRecord) (i : CheckInput) :
    (applyCheck old i).uptime_percent =
      roundDiv (10000 * (applyCheck old i).up_count)
        (applyCheck old i).total_checks ∧
    (applyCheck old i).total_checks =
      (old.getD (initStatusRecord i.site i.status)).total_checks + 1 ∧
    0 < (applyCheck old i).total_checks :=
  ⟨rfl, rfl, Nat.succ_pos _⟩

/-- C5 counterexample: a probe that yields an HTTP response with status
404 after a measured 120.00 ms is classified down, but its recorded
latency is the measured 12000 centi-ms, not 0 — refuting the claim that
every non-200 status yields latency 0. -/
theorem probe_non200_latency_not_zero :
    check_site (.response 404 12000) = ("down", 12000) ∧
    (check_site (.response 404 12000)).2 ≠ 0 := by
  refine ⟨rfl, by decide⟩

/-- C5 (amended): check_site never raises (it is total over all fetch
results); it classifies the outcome up exactly when the HTTP status is
200; a transport error, timeout or DNS failure (any raised exception)
yields down with latency 0; a non-200 HTTP status yields down with the
measured latency, which is not reset to 0. -/
theorem probe_classification (st elapsed : ℕ) (msg : String) :
    (check_site (.response st elapsed)).1 =
      (if st = 200 then "up" else "down") ∧
    (check_site (.response st elapsed)).2 = elapsed ∧
    check_site (.failure msg) = ("down", 0) :=
  ⟨rfl, rfl, rfl⟩

/-- C6: on a scheduler tick of monitor_sites, the (user, site) pairs
dispatched to check_site are exactly the monitored sites whose paused
flag is false: a paused site is never selected and an unpaused site of a
registered user is always selected. -/
theorem tick_dispatches_exactly_unpaused (users : List User) (u : User)
    (s : MonitoredSite) :
    (u, s) ∈ monitor_tick users ↔
      u ∈ users ∧ s ∈ u.monitors ∧ s.paused = false := by
  simp only [monitor_tick, List.mem_flatMap, List.mem_map, List.mem_filter,
    Bool.not_eq_true', Prod.mk.injEq]
  constructor
  · rintro ⟨u', hu', s', ⟨hs', hp⟩, hux, hsx⟩
    subst hux; subst hsx
    exact ⟨hu', hs', hp⟩
  · rintro ⟨hu, hs, hp⟩
    exact ⟨u, hu, s, ⟨hs, hp⟩, rfl, rfl⟩

/-- C7: adding a url that this user already monitors returns the
duplicate error and leaves the whole user state unchanged — no monitor
appended, no status record touched, and no save_users call issued. -/
theorem add_duplicate_rejected (user : User) (name url : String)
    (interval : Int) (probe : HttpFetchResult) (now : ℕ) (diskOk : Bool)
    (h : user.monitors.any (fun s => s.url = url) = true) :
    handle_add_site user name url interval probe now diskOk =
      ⟨user, .duplicate, []⟩ := by
  simp [handle_add_site, h]

def dupUser : User :=
  ⟨"alice", "ph", "salt", [⟨"site", "http://x.test", 30, false⟩], []⟩

theorem add_duplicate_rejected_witness :
    handle_add_site dupUser "other" "http://x.test" 60 (.failure "e") 0 true =
      ⟨dupUser, .duplicate, []⟩ :=
  add_duplicate_rejected dupUser "other" "http://x.test" 60 (.failure "e") 0
    true (by decide)

def noMonUser : User := ⟨"bob", "ph", "salt", [], []⟩

/-- C8 counterexample: handle_add_site accepts a request whose url is
not a well-formed http/https URL and whose interval is negative (far
below any 30-second minimum): the call succeeds and the target is
created, refuting the claim that such input is rejected with an
InvalidInput error. -/
theorem add_accepts_invalid_input :
    (handle_add_site noMonUser "n" "not a url" (-5) (.failure "e") 0 true).outcome =
      AddOutcome.success ∧
    (handle_add_site noMonUser "n" "not a url" (-5) (.failure "e") 0 true).user.monitors =
      [⟨"n", "not a url", -5, false⟩] := by
  refine ⟨rfl, rfl⟩

/-- C8 (amended): handle_add_site performs no url or interval validation
at all: any url string (well-formed or not) and any interval (including
values below 30 and negative ones) are accepted whenever the url is not
already monitored by the user, and the new target is appended; the only
rejection the operation can produce is the duplicate error. -/
theorem add_no_input_validation (user : User) (name url : String)
    (interval : Int) (probe : HttpFetchResult) (now : ℕ) (diskOk : Bool)
    (h : user.monitors.any (fun s => s.url = url) = false) :
    (handle_add_site user name url interval probe now diskOk).outcome =
      AddOutcome.success ∧
    (handle_add_site user name url interval probe now diskOk).user.monitors =
      user.monitors ++ [⟨name, url, interval, false⟩] := by
  constructor <;>
    simp [handle_add_site, h, update_site_status_eff, update_site_status_user]

theorem add_no_input_validation_witness :
    (handle_add_site noMonUser "n2" "http://y.test" 60 (.response 200 100) 0 true).outcome =
      AddOutcome.success ∧
    (handle_add_site noMonUser "n2" "http://y.test" 60 (.response 200 100) 0 true).user.monitors =
      noMonUser.monitors ++ [⟨"n2", "http://y.test", 60, false⟩] :=
  add_no_input_validation noMonUser "n2" "http://y.test" 60 (.response 200 100)
    0 true (by decide)

/-- C9: both mutating operations invoke save_users before returning (the
add path twice: once after the append and once inside the initial
update_site_status of the initial check, the record path once at its end); a failing
save is swallowed — save_users returns the logged-failure outcome
instead of raising — and the in-memory mutation is retained identically
whether the save succeeds or fails. -/
theorem mutations_saved_and_save_failure_swallowed (user : User)
    (site : MonitoredSite) (status : String) (rt now : ℕ)
    (name url : String) (interval : Int) (probe : HttpFetchResult)
    (h : user.monitors.any (fun s => s.url = url) = false) :
    save_users true = .saved ∧
    save_users false = .failedLogged ∧
    (update_site_status_eff user site status rt now false).user =
      update_site_status_user user site status rt now ∧
    (update_site_status_eff user site status rt now false).user =
      (update_site_status_eff user site status rt now true).user ∧
    (update_site_status_eff user site status rt now false).saveResult =
      .failedLogged ∧
    (handle_add_site user name url interval probe now false).user =
      (handle_add_site user name url interval probe now true).user ∧
    (handle_add_site user name url interval probe now false).outcome =
      AddOutcome.success ∧
    (handle_add_site user name url interval probe now false).saveResults =
      [.failedLogged, .failedLogged] ∧
    (handle_add_site user name url interval probe now true).saveResults =
      [.saved, .saved] := by
  refine ⟨rfl, rfl, rfl, rfl, rfl, ?_, ?_, ?_, ?_⟩ <;>
    simp [handle_add_site, h, update_site_status_eff, save_users]

theorem mutations_saved_and_save_failure_swallowed_witness :
    save_users true = .saved ∧
    save_users false = .failedLogged ∧
    (update_site_status_eff noMonUser wSite "up" 12000 0 false).user =
      update_site_status_user noMonUser wSite "up" 12000 0 ∧
    (update_site_status_eff noMonUser wSite "up" 12000 0 false).user =
      (update_site_status_eff noMonUser wSite "up" 12000 0 true).user ∧
    (update_site_status_eff noMonUser wSite "up" 12000 0 false).saveResult =
      .failedLogged ∧
    (handle_add_site noMonUser "n" "http://z.test" 30 (.response 200 100) 0 false).user =
      (handle_add_site noMonUser "n" "http://z.test" 30 (.response 200 100) 0 true).user ∧
    (handle_add_site noMonUser "n" "http://z.test" 30 (.response 200 100) 0 false).outcome =
      AddOutcome.success ∧
    (handle_add_site noMonUser "n" "http://z.test" 30 (.response 200 100) 0 false).saveResults =
      [.failedLogged, .failedLogged] ∧
    (handle_add_site noMonUser "n" "http://z.test" 30 (.response 200 100) 0 true).saveResults =
      [.saved, .saved] :=
  mutations_saved_and_save_failure_swallowed noMonUser wSite "up" 12000 0 "n"
    "http://z.test" 30 (.response 200 100) (by decide)

/-- C10: update_site_status cannot divide by zero: the uptime_percent
division happens after total_checks is incremented, so its divisor is
the predecessor count plus one and thus positive for every call, and the
avg_response_time division is performed only on a non-empty list of
successful responses (the field is set to 0 when the list is empty). -/
theorem no_division_by_zero (old : Option StatusRecord) (i : CheckInput) :
    0 < (applyCheck old i).total_checks ∧
    (applyCheck old i).total_checks =
      (old.getD (initStatusRecord i.site i.status)).total_checks + 1 ∧
    (applyCheck old i).avg_response_time =
      (if successfulResponses (applyCheck old i).history = [] then 0
       else roundDiv (successfulResponses (applyCheck old i).history).sum
         (successfulResponses (applyCheck old i).history).length) ∧
    (successfulResponses (applyCheck old i).history = [] ∨
      0 < (successfulResponses (applyCheck old i).history).length) := by
  refine ⟨Nat.succ_pos _, rfl, rfl, ?_⟩
  rcases h : successfulResponses (applyCheck old i).history with _ | ⟨a, t⟩
  · exact Or.inl rfl
  · exact Or.inr (by simp)
